import Mathlib

/-
Verification of the `andar` path-builder library (src/andar/path_builder.py).

Python strings are modelled as `List Char`, Python dicts as insertion-ordered
association lists (`Dict`), Python's `re` module by an executable regex AST,
a parser from pattern strings to that AST, and a backtracking matcher that
follows CPython's leftmost / priority semantics for the constructs the
library uses.  Fallible Python code (raised exceptions) is modelled with
`Except PBError`.
-/

set_option maxRecDepth 8000

namespace Andar

/-- Python `str`, modelled as a list of characters. -/
abbrev Str := List Char

/-- Python `dict`, modelled as an insertion-ordered association list.
Keys are kept unique by `dset`. -/
abbrev Dict (α : Type) := List (Str × α)

/-- Dictionary lookup (`d[k]` / `d.get(k)`): first binding of the key. -/
def dget? {α : Type} : Dict α → Str → Option α
  | [], _ => none
  | (m, w) :: rest, n => if m = n then some w else dget? rest n

/-- Membership test (`k in d`). -/
def dmem {α : Type} (d : Dict α) (n : Str) : Bool :=
  (dget? d n).isSome

/-- Dictionary update (`d[k] = v`): replaces the first binding in place,
otherwise appends, as Python dicts keep insertion order on update. -/
def dset {α : Type} : Dict α → Str → α → Dict α
  | [], n, v => [(n, v)]
  | (m, w) :: rest, n, v => if m = n then (n, v) :: rest else (m, w) :: dset rest n v

/-- Key list in insertion order (`list(d.keys())`). -/
def dkeys {α : Type} (d : Dict α) : List Str :=
  d.map (fun p => p.1)

/-- Python `d.update(other)`: sets every binding of `other`, in order. -/
def dupdate {α : Type} (d other : Dict α) : Dict α :=
  other.foldl (fun acc p => dset acc p.1 p.2) d

/-- Removal of a key (`d.pop(k)` without default); `none` models `KeyError`. -/
def dpop? {α : Type} : Dict α → Str → Option (α × Dict α)
  | [], _ => none
  | (m, w) :: rest, n =>
    if m = n then some (w, rest)
    else match dpop? rest n with
      | none => none
      | some (v, rest') => some (v, (m, w) :: rest')

/-- Python `dict` equality: order-insensitive comparison as finite maps. -/
def dictBeq {α : Type} [DecidableEq α] (d e : Dict α) : Bool :=
  d.all (fun p => dget? e p.1 = some p.2) && e.all (fun p => dget? d p.1 = some p.2)

/-- Substring test (Python `needle in hay`), by scanning all suffixes. -/
def strContainsB (hay needle : Str) : Bool :=
  hay.tails.any (fun t => needle.isPrefixOf t)

/-- Worker for `strReplaceAll`; the fuel is structural so that concrete
computations reduce definitionally.  Each step consumes at least one
character of `s` (a nonempty `old` is a prefix of a nonempty string), so
`s.length + 1` fuel always suffices. -/
def strReplaceAllGo : Nat → Str → Str → Str → Str
  | 0, s, _, _ => s
  | fuel + 1, s, old, new =>
    match s with
    | [] => []
    | c :: rest =>
      if old ≠ [] ∧ old.isPrefixOf (c :: rest) then
        new ++ strReplaceAllGo fuel (List.drop old.length (c :: rest)) old new
      else
        c :: strReplaceAllGo fuel rest old new

/-- Python `s.replace(old, new)` (all occurrences, left to right,
non-overlapping).  An empty `old` leaves the string unchanged; the library
never calls `replace` with an empty pattern. -/
def strReplaceAll (s old new : Str) : Str :=
  if old = [] then s else strReplaceAllGo (s.length + 1) s old new

/-- Python `s.replace(old, new, 1)` (at most one occurrence). -/
def strReplaceOnce (s old new : Str) : Str :=
  if old = [] then s
  else
    match s with
    | [] => []
    | c :: rest =>
      if old.isPrefixOf (c :: rest) then
        new ++ List.drop old.length (c :: rest)
      else
        c :: strReplaceOnce rest old new

/-- Python `s.split(sep, 1)[0]`: the text before the first occurrence of
`sep`; the whole string when `sep` does not occur. -/
def strSplitOnceHead (s sep : Str) : Str :=
  if sep = [] then s
  else
    match s with
    | [] => []
    | c :: rest =>
      if sep.isPrefixOf (c :: rest) then []
      else c :: strSplitOnceHead rest sep

/-- Python `s.split('/')`: split on a single character, keeping empties. -/
def splitChar (sep : Char) : Str → List Str
  | [] => [[]]
  | c :: rest =>
    if c = sep then [] :: splitChar sep rest
    else
      match splitChar sep rest with
      | [] => [[c]]
      | w :: ws => (c :: w) :: ws

/-- Joining with a separator string (Python `sep.join(parts)`). -/
def joinSep (sep : Str) : List Str → Str
  | [] => []
  | [w] => w
  | w :: ws => w ++ sep ++ joinSep sep ws

/-- Index just past the last `'/'` of the string, 0 when there is none
(Python `p.rfind('/') + 1`). -/
def lastSlashEnd (p : Str) : Nat :=
  (List.range p.length).foldl
    (fun acc i => if p.get? i = some '/' then i + 1 else acc) 0

/-- Python `s.rstrip('/')`. -/
def rstripSlash (s : Str) : Str :=
  ((s.reverse).dropWhile (fun c => c = '/')).reverse

/-- posixpath.dirname: everything before the final path segment. -/
def pyDirname (p : Str) : Str :=
  let i := lastSlashEnd p
  let head := p.take i
  if head ≠ [] ∧ head ≠ List.replicate head.length '/' then
    rstripSlash head
  else
    head

/-- posixpath.normpath: purely lexical normalization.  Collapses repeated
separators and `.` segments, resolves `seg/..` pairs, keeps leading `..`
segments of relative paths, and preserves the POSIX double-initial-slash. -/
def pyNormpath (p : Str) : Str :=
  if p = [] then ['.']
  else
    let twoSl : Str := ['/', '/']
    let threeSl : Str := ['/', '/', '/']
    let initialSlashes : Nat :=
      if ('/' : Char) :: ([] : Str) |>.isPrefixOf p then
        if twoSl.isPrefixOf p ∧ ¬ threeSl.isPrefixOf p then 2 else 1
      else 0
    let comps := splitChar '/' p
    let newComps := comps.foldl
      (fun (acc : List Str) comp =>
        if comp = [] ∨ comp = ['.'] then acc
        else if comp ≠ ['.', '.'] ∨ (initialSlashes = 0 ∧ acc = [])
                ∨ (acc ≠ [] ∧ acc.getLast? = some ['.', '.']) then
          acc ++ [comp]
        else if acc ≠ [] then acc.dropLast
        else acc) []
    let joined := joinSep ['/'] newComps
    let res := List.replicate initialSlashes '/' ++ joined
    if res = [] then ['.'] else res

/-- Decimal rendering of a natural number (Python `str(idx)`). -/
def natToStr (n : Nat) : Str :=
  let rec go (fuel : Nat) (m : Nat) (acc : Str) : Str :=
    match fuel with
    | 0 => acc
    | fuel + 1 =>
      let d := Char.ofNat (48 + m % 10)
      if m < 10 then d :: acc
      else go fuel (m / 10) (d :: acc)
  go (n + 1) n []

/-- Abstract terms of the regular-expression dialect the library feeds to
Python's `re` module: literals, `.`, character classes, the `^` and `$`
assertions, concatenation, ordered alternation, greedy/lazy repetition and
named groups.  Bounded repetitions `\x7bn\x7d` are desugared to repeated
concatenation by the pattern parser. -/
inductive RE : Type
  | eps : RE
  | lit : Char → RE
  | anyc : RE
  | cls : Bool → List (Char × Char) → RE
  | bol : RE
  | eol : RE
  | seq : RE → RE → RE
  | alt : RE → RE → RE
  | star : RE → Bool → RE
  | grp : Str → RE → RE
deriving Repr

/-- Character-class membership: `neg` is the `[^...]` complement flag, each
pair is an inclusive range (a single character is the pair `(c, c)`). -/
def inCls (neg : Bool) (rs : List (Char × Char)) (c : Char) : Bool :=
  let m := rs.any (fun pr =>
    decide (pr.1.toNat ≤ c.toNat) && decide (c.toNat ≤ pr.2.toNat))
  if neg then !m else m

/-- Desugaring of an exact bounded repetition `r\x7bn\x7d`. -/
def seqN : Nat → RE → RE
  | 0, _ => .eps
  | n + 1, r => .seq r (seqN n r)

/-- Meaning of an escape sequence `\c` outside a character class. -/
def escRE (c : Char) : RE :=
  if c = 'd' then .cls false [('0', '9')]
  else if c = 'w' then .cls false [('a', 'z'), ('A', 'Z'), ('0', '9'), ('_', '_')]
  else if c = 's' then .cls false [(' ', ' '), ('\t', '\t'), ('\n', '\n'), ('\x0b', '\x0b'), ('\x0c', '\x0c'), ('\r', '\r')]
  else if c = 'n' then .lit '\n'
  else if c = 't' then .lit '\t'
  else .lit c

/-- Items of a character class `[...]`, after the optional leading `^` and a
possible leading literal `-` have been consumed.  A `-` between two
characters denotes a range unless it directly precedes the closing `]`. -/
def pClsItems : Str → List (Char × Char) → Option (List (Char × Char) × Str)
  | [], _ => none
  | ']' :: rest, acc => some (acc.reverse, rest)
  | '\\' :: c :: rest, acc =>
    if c = 'd' then pClsItems rest (('0', '9') :: acc)
    else if c = 'w' then pClsItems rest (('_', '_') :: ('9', '0').swap :: ('Z', 'A').swap :: ('z', 'a').swap :: acc)
    else pClsItems rest ((c, c) :: acc)
  | c :: '-' :: d :: rest, acc =>
    if d = ']' then some ((('-', '-') :: (c, c) :: acc).reverse, rest)
    else pClsItems rest ((c, d) :: acc)
  | c :: rest, acc => pClsItems rest ((c, c) :: acc)

/-- A character class starting right after `[`: handles the complement flag
and a literal `-` in the first position. -/
def pCls (s : Str) : Option (RE × Str) :=
  let (neg, s₁) := match s with
    | '^' :: r => (true, r)
    | _ => (false, s)
  let (acc₀, s₂) := match s₁ with
    | '-' :: r => ([(('-' : Char), ('-' : Char))], r)
    | _ => ([], s₁)
  match pClsItems s₂ acc₀.reverse with
  | none => none
  | some (items, rest) => some (.cls neg items, rest)

/-- Digits of a decimal number at the head of the string. -/
def pNum (s : Str) : Option (Nat × Str) :=
  let ds := s.takeWhile (fun c => decide ('0'.toNat ≤ c.toNat) && decide (c.toNat ≤ '9'.toNat))
  if ds = [] then none
  else some (ds.foldl (fun acc c => acc * 10 + (c.toNat - '0'.toNat)) 0, s.drop ds.length)

/-- Quantifier suffix of an atom: `*`, `+`, `?`, their lazy variants, and the
exact repetition `\x7bn\x7d`.  With no quantifier present the atom is
returned unchanged. -/
def pPost (a : RE) (s : Str) : RE × Str :=
  match s with
  | '*' :: '?' :: r => (.star a true, r)
  | '*' :: r => (.star a false, r)
  | '+' :: '?' :: r => (.seq a (.star a true), r)
  | '+' :: r => (.seq a (.star a false), r)
  | '?' :: '?' :: r => (.alt .eps a, r)
  | '?' :: r => (.alt a .eps, r)
  | '\x7b' :: r =>
    (match pNum r with
     | some (n, '\x7d' :: r') => (seqN n a, r')
     | _ => (a, s))
  | _ => (a, s)

mutual

/-- Alternation level of the pattern grammar: `seq (| seq)*`, with `|`
binding loosest, exactly as in Python `re`. -/
def pAlt : Nat → Str → Option (RE × Str)
  | 0, _ => none
  | n + 1, s =>
    match pSeq n s with
    | none => none
    | some (r₁, s₁) =>
      match s₁ with
      | '|' :: rest =>
        match pAlt n rest with
        | none => none
        | some (r₂, s₂) => some (.alt r₁ r₂, s₂)
      | _ => some (r₁, s₁)

/-- Concatenation level: a possibly empty run of quantified atoms, stopping
at `|`, `)` or the end of the pattern. -/
def pSeq : Nat → Str → Option (RE × Str)
  | 0, _ => none
  | n + 1, s =>
    match s with
    | [] => some (.eps, [])
    | '|' :: _ => some (.eps, s)
    | ')' :: _ => some (.eps, s)
    | _ =>
      match pAtom n s with
      | none => none
      | some (a, s₁) =>
        let (a₂, s₂) := pPost a s₁
        match pSeq n s₂ with
        | none => none
        | some (b, s₃) => some (.seq a₂ b, s₃)

/-- Atom level: groups `(?P<name>...)`, `(?:...)`, `(...)`, classes,
escapes, anchors, `.` and literal characters.  A dangling quantifier is a
pattern error (`re.error`), modelled as `none`. -/
def pAtom : Nat → Str → Option (RE × Str)
  | 0, _ => none
  | n + 1, s =>
    match s with
    | [] => none
    | '(' :: '?' :: 'P' :: '<' :: r2 =>
      let name := r2.takeWhile (fun c => c ≠ '>')
      (match r2.drop name.length with
       | '>' :: r3 =>
         (match pAlt n r3 with
          | some (r, ')' :: rest') => some (.grp name r, rest')
          | _ => none)
       | _ => none)
    | '(' :: '?' :: ':' :: r2 =>
      (match pAlt n r2 with
       | some (r, ')' :: rest') => some (r, rest')
       | _ => none)
    | '(' :: r2 =>
      (match pAlt n r2 with
       | some (r, ')' :: rest') => some (r, rest')
       | _ => none)
    | '[' :: rest => pCls rest
    | '\\' :: c :: rest => some (escRE c, rest)
    | '^' :: rest => some (.bol, rest)
    | '$' :: rest => some (.eol, rest)
    | '.' :: rest => some (.anyc, rest)
    | '*' :: _ => none
    | '+' :: _ => none
    | '?' :: _ => none
    | c :: rest => some (.lit c, rest)

end

/-- Compilation of a full pattern string into the regex AST; `none` models
`re.error`.  The fuel bound is generous: every grammar level consumes fuel
and the pattern length bounds the recursion depth. -/
def parseRE (pat : Str) : Option RE :=
  match pAlt (4 * pat.length + 8) pat with
  | some (r, []) => some r
  | _ => none

/-- Capture environment of a match attempt: named group to captured text. -/
abbrev Caps := Dict Str

/-- The substring of `s` from position `i` (inclusive) to `j` (exclusive). -/
def subStr (s : Str) (i j : Nat) : Str :=
  (s.drop i).take (j - i)

/-- Truth of the `$` assertion at a position: end of the string, or just
before a trailing newline (Python semantics without `re.MULTILINE`). -/
def eolOk (s : Str) (pos : Nat) : Bool :=
  s.drop pos = [] ∨ s.drop pos = ['\n']

/-- Structural size of a pattern, used only for the matcher's fuel bound. -/
def reSize : RE → Nat
  | .eps | .lit _ | .anyc | .cls _ _ | .bol | .eol => 1
  | .seq a b => reSize a + reSize b + 1
  | .alt a b => reSize a + reSize b + 1
  | .star b _ => reSize b + 1
  | .grp _ b => reSize b + 1

/-- Backtracking matcher in continuation-passing style, following CPython's
ordered-choice semantics: alternation prefers the left branch, greedy
repetition prefers one more iteration, lazy repetition prefers exit, and a
group capture records the consumed substring on the successful path only.
A repetition iterates only while the body consumes characters (CPython
stops repeating on an empty body match).  The fuel is structural so that
concrete computations reduce definitionally; it only bounds the nesting
depth along one continuation chain — pattern size plus star iterations —
so the caller's bound in `reMatch` always suffices and the `0` case is
unreachable there.  `none` is overall failure of this attempt. -/
def reMat : Nat → RE → Str → Nat → Caps → (Nat → Caps → Option Caps) → Option Caps
  | 0, _, _, _, _, _ => none
  | fuel + 1, r, s, pos, caps, k =>
    match r with
    | .eps => k pos caps
    | .lit c =>
      (match s.get? pos with
       | some c' => if c' = c then k (pos + 1) caps else none
       | none => none)
    | .anyc =>
      (match s.get? pos with
       | some c' => if c' = '\n' then none else k (pos + 1) caps
       | none => none)
    | .cls neg rs =>
      (match s.get? pos with
       | some c' => if inCls neg rs c' then k (pos + 1) caps else none
       | none => none)
    | .bol => if pos = 0 then k pos caps else none
    | .eol => if eolOk s pos then k pos caps else none
    | .seq a b => reMat fuel a s pos caps (fun p c => reMat fuel b s p c k)
    | .alt a b =>
      (match reMat fuel a s pos caps k with
       | some res => some res
       | none => reMat fuel b s pos caps k)
    | .star b lz =>
      if lz then
        match k pos caps with
        | some res => some res
        | none =>
          reMat fuel b s pos caps
            (fun p c => if pos < p then reMat fuel (.star b lz) s p c k else none)
      else
        match reMat fuel b s pos caps
            (fun p c => if pos < p then reMat fuel (.star b lz) s p c k else none) with
        | some res => some res
        | none => k pos caps
    | .grp nm b => reMat fuel b s pos caps (fun p c => k p (dset c nm (subStr s pos p)))

/-- Python `re.match(pattern, s)` for an already-compiled pattern: a match
anchored at position 0 but free to stop anywhere (explicit `$` tokens in the
pattern provide end anchoring).  Returns the capture environment. -/
def reMatch (r : RE) (s : Str) : Option Caps :=
  reMat ((reSize r + 2) * (s.length + 2) + 16) r s 0 [] (fun _ caps => some caps)

/-- Ordered list of named groups of a compiled pattern. -/
def reGroupNames : RE → List Str
  | .eps | .lit _ | .anyc | .cls _ _ | .bol | .eol => []
  | .seq a b => reGroupNames a ++ reGroupNames b
  | .alt a b => reGroupNames a ++ reGroupNames b
  | .star b _ => reGroupNames b
  | .grp nm b => nm :: reGroupNames b

/-- Python `match.groupdict()`: every named group of the pattern, in group
order, mapped to its captured text or `None` when it did not participate. -/
def reGroupdict (r : RE) (caps : Caps) : Dict (Option Str) :=
  (reGroupNames r).map (fun n => (n, dget? caps n))

/-- Python values flowing through the builder: strings and `None`.  The date
and datetime objects accepted by converter-equipped fields are outside this
model; no claim exercises them. -/
inductive PyVal : Type
  | vstr : Str → PyVal
  | vnone : PyVal
deriving DecidableEq, Repr

/-- Python `str(v)` for the modelled values (`str(None)` is `"None"`). -/
def pyStrOf : PyVal → Str
  | .vstr s => s
  | .vnone => ('N' : Char) :: ('o' : Char) :: ('n' : Char) :: ('e' : Char) :: []

/-- The exceptions the library can raise, with the context each message
carries.  `ValueError`s raised by the library get a constructor per call
site; `keyError`, `attributeError` and `typeError` model the corresponding
built-in exceptions escaping from plain Python operations. -/
inductive PBError : Type
  | invalidFields : List Str → Str → PBError
  | missingFields : List Str → Str → PBError
  | parentMismatch : Str → Str → PBError
  | invalidFieldValue : Str → Str → Str → PBError
  | unknownField : Str → List Str → PBError
  | parseNoMatch : Str → Str → PBError
  | dupFieldMismatch : Str → List (Option Str) → PBError
  | extraKwargs : Dict PyVal → Str → Str → PBError
  | keyError : Str → PBError
  | attributeError : Str → PBError
  | typeError : Str → PBError
  | regexError : Str → PBError
  | notModelled : Str → PBError
deriving DecidableEq, Repr

/-- Per-field configuration, mirroring `FieldConf` in the source.  The
custom converters are optional string functions; the date formats are kept
as data so that the branch structure of the source is preserved. -/
structure FieldConf : Type where
  pattern : Str
  date_format : Option Str
  datetime_format : Option Str
  is_optional : Bool
  str_to_var : Option (Str → Str)
  var_to_str : Option (Str → Str)

namespace SafePatterns

/-- Non-greedy filename pattern (separators `-`, `_`, `.`). -/
def FILENAME : Str := "[-_.a-zA-Z0-9]+?".data

/-- Non-greedy directory-path pattern (also allows `/`). -/
def DIRPATH : Str := "[-_.a-zA-Z0-9/]+?".data

/-- Non-greedy field pattern without separator characters. -/
def FIELD : Str := "[a-zA-Z0-9]+?".data

/-- Non-greedy extension pattern (dots allowed for sub extensions). -/
def EXTENSION : Str := "[.a-zA-Z0-9]+?".data

end SafePatterns

/-- The default `FieldConf()`: `SafePatterns.FILENAME`, no converters,
not optional. -/
def defaultFieldConf : FieldConf :=
  { pattern := SafePatterns.FILENAME, date_format := none,
    datetime_format := none, is_optional := false,
    str_to_var := none, var_to_str := none }

/-- Scanner for `string.Formatter().parse`: collects the placeholder names
between brace pairs, in order, duplicates preserved.  The second argument
holds the (reversed) name being read when inside braces. -/
def get_template_fields_names_aux : Str → Option Str → List Str
  | [], _ => []
  | c :: rest, none =>
    if c = '\x7b' then get_template_fields_names_aux rest (some [])
    else get_template_fields_names_aux rest none
  | c :: rest, some acc =>
    if c = '\x7d' then acc.reverse :: get_template_fields_names_aux rest none
    else get_template_fields_names_aux rest (some (c :: acc))

/-- `PathBuilder.get_template_fields_names`: the ordered placeholder names
of a template, duplicates preserved. -/
def get_template_fields_names (path_template : Str) : List Str :=
  get_template_fields_names_aux path_template none

/-- Scanner for `template.format(**mapping)`: substitutes every placeholder;
a placeholder absent from the mapping is a `KeyError`. -/
def formatStrAux : Str → Dict Str → Option Str → Except PBError Str
  | [], _, none => .ok []
  | [], _, some acc => .error (.regexError acc.reverse)
  | c :: rest, d, none =>
    if c = '\x7b' then formatStrAux rest d (some [])
    else (fun t => c :: t) <$> formatStrAux rest d none
  | c :: rest, d, some acc =>
    if c = '\x7d' then
      match dget? d acc.reverse with
      | none => .error (.keyError acc.reverse)
      | some v => (fun t => v ++ t) <$> formatStrAux rest d none
    else formatStrAux rest d (some (c :: acc))

/-- Python `template.format(**mapping)` on the flat `\x7bname\x7d` templates the
library uses. -/
def formatStr (template : Str) (mapping : Dict Str) : Except PBError Str :=
  formatStrAux template mapping none

/-- `PathBuilder.check_template_fields`: invalid fields (map keys absent
from the template) are checked first and raise alone; missing fields
(template names absent from the map) are only reported when there are no
invalid fields. -/
def check_template_fields (path_template : Str) (keys : List Str) : Except PBError Unit :=
  let template_fields := get_template_fields_names path_template
  let invalid_fields := keys.filter (fun f => ¬ template_fields.contains f)
  if invalid_fields ≠ [] then .error (.invalidFields invalid_fields path_template)
  else
    let missing_fields := template_fields.filter (fun f => ¬ keys.contains f)
    if missing_fields ≠ [] then .error (.missingFields missing_fields path_template)
    else .ok ()

/-- `PathBuilder.check_parent_path_template`: the parent template must be a
substring (`in`) of the template. -/
def check_parent_path_template (path_template parent_path_template : Str) : Except PBError Unit :=
  if strContainsB path_template parent_path_template then .ok ()
  else .error (.parentMismatch path_template parent_path_template)

/-- `PathBuilder.assign_groupname_pattern_dict`: wraps each pattern in a
named group `(?P<field>pattern)`. -/
def assign_groupname_pattern_dict (pattern_dict : Dict Str) : Dict Str :=
  pattern_dict.map (fun p =>
    (p.1, "(?P<".data ++ p.1 ++ ">".data ++ p.2 ++ ")".data))

/-- The `PathBuilder` instance data: template, parent template, per-field
configurations (insertion-ordered) and the default configuration. -/
structure PathBuilder : Type where
  template : Str
  parent_template : Str
  fields : Dict FieldConf
  default_field : FieldConf

/-- `PathBuilder.__init__`: defaults the parent template to the directory
portion, checks it is a substring, overlays explicit field configurations
onto the default one for every template placeholder, and validates exact
coverage. -/
def mkPathBuilder (template : Str) (parent_template? : Option Str)
    (fields? : Option (Dict FieldConf)) (default_field? : Option FieldConf) :
    Except PBError PathBuilder := do
  let parent_template :=
    match parent_template? with
    | none => pyDirname template
    | some p => p
  check_parent_path_template template parent_template
  let default_field :=
    match default_field? with
    | none => defaultFieldConf
    | some d => d
  let template_field_names := get_template_fields_names template
  let base := template_field_names.foldl
    (fun (d : Dict FieldConf) n => dset d n default_field) []
  let new_fields :=
    match fields? with
    | none => base
    | some fs => dupdate base fs
  check_template_fields template (dkeys new_fields)
  .ok { template := template, parent_template := parent_template,
        fields := new_fields, default_field := default_field }

/-- Value encoding inside `prepare_fields_values`: date and datetime
formatting would call `.strftime` on the value, which the modelled values
(strings and `None`) do not have, hence `AttributeError`; a custom
`var_to_str` is applied to a string value; otherwise generic `str()`. -/
def encodeValue (conf : FieldConf) (v : PyVal) : Except PBError Str :=
  if conf.date_format.isSome then .error (.attributeError "strftime".data)
  else if conf.datetime_format.isSome then .error (.attributeError "strftime".data)
  else
    match conf.var_to_str with
    | some f =>
      (match v with
       | .vstr s => .ok (f s)
       | .vnone => .error (.typeError "descriptor upper for str objects".data))
    | none => .ok (pyStrOf v)

/-- `PathBuilder.prepare_fields_values`: encodes every supplied value to a
string (an omitted-optional `None` becomes the empty string, skipping
validation) and validates each encoded string against `^pattern$`. -/
def prepare_fields_values (fields_values_dict : Dict PyVal)
    (fields_conf : Dict FieldConf) : Except PBError (Dict Str) :=
  match fields_values_dict with
  | [] => .ok []
  | (name, v) :: rest =>
    match dget? fields_conf name with
    | none => prepare_fields_values rest fields_conf
    | some conf =>
      if v = .vnone ∧ conf.is_optional then
        (fun d => (name, ([] : Str)) :: d) <$> prepare_fields_values rest fields_conf
      else do
        let enc ← encodeValue conf v
        let patS := '^' :: (conf.pattern ++ ['$'])
        match parseRE patS with
        | none => .error (.regexError patS)
        | some r =>
          match reMatch r enc with
          | none => .error (.invalidFieldValue name enc conf.pattern)
          | some _ =>
            (fun d => (name, enc) :: d) <$> prepare_fields_values rest fields_conf

/-- `PathBuilder.process_parsed_fields_values`: decodes every parsed group.
The compiled check is the string `^pattern|$` for an optional field and
`^pattern$` otherwise — the alternation is deliberately left at top level,
as in the source.  The date and datetime branches would call
`datetime.strptime`, which is outside this model and unreached by every
claim. -/
def process_parsed_fields_values (fields : Dict FieldConf) :
    Dict (Option Str) → Except PBError (Dict PyVal)
  | [] => .ok []
  | (name, v) :: rest =>
    match dget? fields name with
    | none => .error (.unknownField name (dkeys fields))
    | some conf =>
      let patS :=
        if conf.is_optional then '^' :: (conf.pattern ++ ['|', '$'])
        else '^' :: (conf.pattern ++ ['$'])
      match v with
      | none => .error (.typeError "expected string or bytes-like object".data)
      | some sv =>
        match parseRE patS with
        | none => .error (.regexError patS)
        | some r =>
          match reMatch r sv with
          | none => .error (.invalidFieldValue name sv conf.pattern)
          | some _ => do
            let nv ←
              (if conf.date_format.isSome ∨ conf.datetime_format.isSome then
                 Except.error (.notModelled "strptime".data)
               else
                 match conf.str_to_var with
                 | some f => Except.ok (f sv)
                 | none => Except.ok sv)
            let out := if nv = [] ∧ conf.is_optional then PyVal.vnone else PyVal.vstr nv
            (fun d => (name, out) :: d) <$> process_parsed_fields_values fields rest

/-- `PathBuilder._get_path`: fills omitted optional fields with `None`,
checks exact coverage, encodes the values, substitutes them into the
template and lexically normalizes the result with `os.path.normpath`. -/
def get_path_impl (template : Str) (fields_conf : Dict FieldConf)
    (fields_values_dict : Dict PyVal) : Except PBError Str := do
  let template_fields := get_template_fields_names template
  let missing_fields := template_fields.filter (fun f => ¬ dmem fields_values_dict f)
  let vals ← missing_fields.foldlM
    (fun (d : Dict PyVal) f =>
      match dget? fields_conf f with
      | none => Except.error (.keyError f)
      | some conf => Except.ok (if conf.is_optional then dset d f .vnone else d))
    fields_values_dict
  check_template_fields template (dkeys vals)
  let prepared ← prepare_fields_values vals fields_conf
  let new_path ← formatStr template prepared
  .ok (pyNormpath new_path)

/-- `PathBuilder.get_path`: path assembly from keyword values. -/
def get_path (b : PathBuilder) (kwargs : Dict PyVal) : Except PBError Str :=
  get_path_impl b.template b.fields kwargs

/-- Worker for `dedupFirst` with structural fuel (each step removes at
least the head, so `l.length + 1` fuel suffices). -/
def dedupFirstGo : Nat → List Str → List Str
  | 0, _ => []
  | _ + 1, [] => []
  | fuel + 1, x :: xs => x :: dedupFirstGo fuel (xs.filter (fun y => y ≠ x))

/-- First-occurrence deduplication of a name list.  The source uses
`list(set(template_fields))`, whose order CPython leaves unspecified; the
order influences nothing observable here except which duplicated field is
fused first, and the dedup names `name__i` are fresh for the templates the
claims quantify over. -/
def dedupFirst (l : List Str) : List Str :=
  dedupFirstGo (l.length + 1) l

/-- State threaded through the duplicate-field rewriting loop of
`parse_fields`: the rewritten pattern dictionary, the original name → dedup
names map, and the rewritten template. -/
structure DedupSt : Type where
  newPd : Dict Str
  ddMap : List (Str × List Str)
  newTemplate : Str

/-- The duplicate-field rewriting loop of `parse_fields`: each name that
occurs `k > 1` times in the template is replaced by `name__0 … name__(k-1)`,
every dedup name receiving the original pattern, and the template
occurrences being rewritten one at a time. -/
def dedupLoop (template_fields : List Str) (pattern_dict : Dict Str) :
    List Str → DedupSt → Except PBError DedupSt
  | [], st => .ok st
  | f :: rest, st =>
    match dget? pattern_dict f with
    | none => .error (.keyError f)
    | some pat =>
      let cnt := template_fields.count f
      if cnt = 1 then
        dedupLoop template_fields pattern_dict rest
          { st with newPd := dset st.newPd f pat }
      else
        let newNames := (List.range cnt).map (fun i => f ++ "__".data ++ natToStr i)
        let newPd := newNames.foldl (fun d nf => dset d nf pat) st.newPd
        let newTemplate := newNames.foldl
          (fun t nf =>
            strReplaceOnce t ("\x7b".data ++ f ++ "\x7d".data)
              ("\x7b".data ++ nf ++ "\x7d".data))
          st.newTemplate
        dedupLoop template_fields pattern_dict rest
          { newPd := newPd, ddMap := st.ddMap ++ [(f, newNames)],
            newTemplate := newTemplate }

/-- Removal of a list of keys from a dictionary, collecting their values in
order (the pop comprehension of the fusion loop); `none` is a `KeyError`. -/
def dpopList {α : Type} : Dict α → List Str → Option (List α × Dict α)
  | d, [] => some ([], d)
  | d, n :: ns =>
    match dpop? d n with
    | none => none
    | some (v, d') =>
      match dpopList d' ns with
      | none => none
      | some (vs, d'') => some (v :: vs, d'')

/-- Python's `len(list(set(vs))) == 1`: the list is nonempty and all its
elements are equal. -/
def allSame {α : Type} [DecidableEq α] : List α → Bool
  | [] => false
  | v :: vs => vs.all (fun w => w = v)

/-- The duplicate-fusion loop of `parse_fields`: for every original field
name with dedup variants, pop all variant captures; if they are not all
identical this raises (independently of `raise_error`), otherwise the
common value is stored back under the original name. -/
def fuseDedup : List (Str × List Str) → Dict (Option Str) →
    Except PBError (Dict (Option Str))
  | [], gd => .ok gd
  | (orig, names) :: rest, gd =>
    match dpopList gd names with
    | none => .error (.keyError orig)
    | some (vs, gd') =>
      if allSame vs then
        fuseDedup rest (dset gd' orig (vs.headD none))
      else .error (.dupFieldMismatch orig vs)

/-- Compilation and matching stage of `parse_fields`: compiles the pattern
string (`re.error` being `regexError`), attempts the match, and returns the
`groupdict` of the match, `none` standing for a failed match. -/
def re_match_groupdict (patS s : Str) : Except PBError (Option (Dict (Option Str))) :=
  match parseRE patS with
  | none => .error (.regexError patS)
  | some r => .ok ((reMatch r s).map (fun caps => reGroupdict r caps))

/-- `PathBuilder.parse_fields`: validates the pattern dictionary against the
template, rewrites duplicated fields, compiles the anchored pattern string
`^template-with-named-groups$`, matches the input, and fuses duplicated
captures.  `.ok none` is the non-strict no-match result. -/
def parse_fields (s : Str) (template : Str) (pattern_dict : Dict Str)
    (raise_error : Bool) : Except PBError (Option (Dict (Option Str))) :=
  match check_template_fields template (dkeys pattern_dict) with
  | .error e => .error e
  | .ok () =>
    let template_fields := get_template_fields_names template
    let unique_fields := dedupFirst template_fields
    match dedupLoop template_fields pattern_dict unique_fields
        { newPd := [], ddMap := [], newTemplate := template } with
    | .error e => .error e
    | .ok st =>
      let has_duplicates := ¬ dictBeq pattern_dict st.newPd
      let pd := if has_duplicates then st.newPd else pattern_dict
      let tmpl := if has_duplicates then st.newTemplate else template
      let named := assign_groupname_pattern_dict pd
      match formatStr tmpl named with
      | .error e => .error e
      | .ok patBody =>
        let patS := '^' :: (patBody ++ ['$'])
        match re_match_groupdict patS s with
        | .error e => .error e
        | .ok none =>
          if raise_error then .error (.parseNoMatch s patS) else .ok none
        | .ok (some gd) =>
          match fuseDedup st.ddMap gd with
          | .error e => .error e
          | .ok fused => .ok (some fused)

/-- `PathBuilder.parse_file_path`: escapes the literal dots of the template,
builds the per-field pattern dictionary (an optional field's pattern gains a
trailing `|` and its following directory separator is made optional in the
template), parses, then decodes the captured groups.  When the non-strict
parse returned `None`, the source calls `None.copy()` inside
`process_parsed_fields_values`, an `AttributeError`. -/
def parse_file_path (b : PathBuilder) (file_path : Str) (raise_error : Bool) :
    Except PBError (Option (Dict PyVal)) := do
  let path_template₀ := strReplaceAll b.template ['.'] ['\\', '.']
  let st := b.fields.foldl
    (fun (st : Str × Dict Str) p =>
      if p.2.is_optional then
        (strReplaceAll st.1 ("\x7b".data ++ p.1 ++ "\x7d/\x7b".data)
           ("\x7b".data ++ p.1 ++ "\x7d/?\x7b".data),
         dset st.2 p.1 (p.2.pattern ++ ['|']))
      else (st.1, dset st.2 p.1 p.2.pattern))
    (path_template₀, [])
  let parsed ← parse_fields file_path st.1 st.2 raise_error
  match parsed with
  | none => .error (.attributeError "NoneType object has no attribute copy".data)
  | some d => (fun x => some x) <$> process_parsed_fields_values b.fields d

/-- The dynamic-truncation loop of `get_parent_path`: walks the parent
field names in order; at the first field that is neither supplied nor
optional, the parent template is cut to the text before that placeholder
and the walk stops.  Returns the kept field names, the truncating field (if
any) and the (possibly truncated) parent template. -/
def dynLoop (parent_fields : Dict FieldConf) (kwargs : Dict PyVal) :
    List Str → Str → List Str → Except PBError (List Str × Option Str × Str)
  | [], tmpl, dyn => .ok (dyn.reverse, none, tmpl)
  | f :: rest, tmpl, dyn =>
    match dget? parent_fields f with
    | none => .error (.keyError f)
    | some conf =>
      if ¬ dmem kwargs f ∧ ¬ conf.is_optional then
        .ok (dyn.reverse, some f,
             strSplitOnceHead tmpl ("\x7b".data ++ f ++ "\x7d".data))
      else dynLoop parent_fields kwargs rest tmpl (f :: dyn)

/-- The field-dropping prologue of `get_parent_path`: pops every field of
the main template that does not belong to the parent template (`dict.pop`
raises `KeyError` on a duplicated non-parent name). -/
def drop_filename_fields (b : PathBuilder) : Except PBError (Dict FieldConf) :=
  (get_template_fields_names b.template).foldlM
    (fun (d : Dict FieldConf) f =>
      if (get_template_fields_names b.parent_template).contains f then Except.ok d
      else
        match dpop? d f with
        | none => Except.error (.keyError f)
        | some (_, d') => Except.ok d')
    b.fields

/-- `PathBuilder.get_parent_path`: drops the non-parent fields, runs the
dynamic truncation loop, drops the fields past the cut, raises `ValueError`
when truncation occurred and extra keyword values survive past the cut, and
otherwise delegates to `_get_path` on the truncated template. -/
def get_parent_path (b : PathBuilder) (kwargs : Dict PyVal) : Except PBError Str :=
  match drop_filename_fields b with
  | .error e => .error e
  | .ok parent_fields =>
    match dynLoop parent_fields kwargs (get_template_fields_names b.parent_template)
        b.parent_template [] with
    | .error e => .error e
    | .ok (dyn, missing?, new_parent_template) =>
      let surviving := parent_fields.filter (fun p => dyn.contains p.1)
      let extra_kwargs := kwargs.filter (fun p => ¬ dmem surviving p.1)
      match missing? with
      | some mk =>
        if mk ≠ [] ∧ extra_kwargs ≠ [] then
          .error (.extraKwargs extra_kwargs new_parent_template mk)
        else get_path_impl new_parent_template surviving kwargs
      | none => get_path_impl new_parent_template surviving kwargs

/-- Whether the truncation walk keeps a parent field: its configuration
exists and the field is either supplied or optional. -/
def keptField (pf : Dict FieldConf) (kwargs : Dict PyVal) (g : Str) : Bool :=
  match dget? pf g with
  | none => false
  | some c => dmem kwargs g || c.is_optional

/-- Whether the truncation walk stops at a parent field: its configuration
exists, the field is not supplied and not optional. -/
def truncAtField (pf : Dict FieldConf) (kwargs : Dict PyVal) (f : Str) : Bool :=
  match dget? pf f with
  | none => false
  | some c => !dmem kwargs f && !c.is_optional

/-- Full-match test for a pattern fragment: Python `re.match` of
`^(?:p)$`.  This is the acceptance language the specification ascribes to a
non-optional field (and, together with the empty string, to an optional
field); the source's unparenthesised `^p|$` / `^p$` checks differ from it. -/
def re_full_matchB (p s : Str) : Bool :=
  match parseRE ('^' :: '(' :: '?' :: ':' :: (p ++ [')', '$'])) with
  | none => false
  | some r => (reMatch r s).isSome

/-- Looking up a key right after setting it yields the new value. -/
theorem dget?_dset {α : Type} (d : Dict α) (n : Str) (v : α) :
    dget? (dset d n v) n = some v := by
  induction d with
  | nil => simp [dset, dget?]
  | cons p rest ih =>
    obtain ⟨m, w⟩ := p
    by_cases h : m = n
    · simp [dset, h, dget?]
    · simp [dset, h, dget?, ih]

/-- Behaviour of the dynamic truncation walk when the first non-kept parent
field sits at position `k`: every earlier field is supplied-or-optional,
the field at `k` is neither, and the walk returns the first `k` names, the
truncating field, and the parent template cut just before that field's
placeholder. -/
theorem dynLoop_spec (pf : Dict FieldConf) (kwargs : Dict PyVal)
    (names : List Str) :
    ∀ (k : Nat) (tmpl : Str) (acc : List Str),
      k < names.length →
      (∀ j, j < k → keptField pf kwargs (names.getD j []) = true) →
      truncAtField pf kwargs (names.getD k []) = true →
      dynLoop pf kwargs names tmpl acc =
        .ok (acc.reverse ++ names.take k, some (names.getD k []),
             strSplitOnceHead tmpl ("\x7b".data ++ names.getD k [] ++ "\x7d".data)) := by
  induction names with
  | nil =>
    intro k tmpl acc hk _ _
    simp at hk
  | cons g rest ih =>
    intro k tmpl acc hk hbefore htr
    cases k with
    | zero =>
      simp only [List.getD_cons_zero] at htr ⊢
      cases hconf : dget? pf g with
      | none =>
        simp only [truncAtField, hconf] at htr
        exact Bool.noConfusion htr
      | some c =>
        simp only [truncAtField, hconf, Bool.and_eq_true, Bool.not_eq_true'] at htr
        unfold dynLoop
        simp only [hconf]
        rw [if_pos ⟨by simp [htr.1], by simp [htr.2]⟩]
        simp
    | succ k =>
      have hkept := hbefore 0 (Nat.succ_pos k)
      simp only [List.getD_cons_zero] at hkept
      cases hconf : dget? pf g with
      | none =>
        simp only [keptField, hconf] at hkept
        exact Bool.noConfusion hkept
      | some c =>
        simp only [keptField, hconf] at hkept
        unfold dynLoop
        simp only [hconf]
        rw [if_neg]
        · rw [ih k tmpl (g :: acc) (by simpa using hk)
            (fun j hj => by simpa using hbefore (j + 1) (by omega))
            (by simpa using htr)]
          simp
        · intro hcontra
          rcases Bool.or_eq_true_iff.mp hkept with hm | ho
          · exact hcontra.1 hm
          · exact hcontra.2 ho

/-- The scenario builder of the specification: `\x7ba\x7d/\x7bb\x7d/\x7bc\x7d.\x7bext\x7d`
with default field configurations. -/
def pbScenario : PathBuilder :=
  { template := "{a}/{b}/{c}.{ext}".data, parent_template := "{a}/{b}".data,
    fields := [("a".data, defaultFieldConf), ("b".data, defaultFieldConf),
               ("c".data, defaultFieldConf), ("ext".data, defaultFieldConf)],
    default_field := defaultFieldConf }

/-- A builder with two adjacent placeholders (an ambiguous template). -/
def pbAdjacent : PathBuilder :=
  { template := "{a}{b}".data, parent_template := [],
    fields := [("a".data, defaultFieldConf), ("b".data, defaultFieldConf)],
    default_field := defaultFieldConf }

/-- A one-field builder with the default configuration. -/
def pbSingle : PathBuilder :=
  { template := "{a}".data, parent_template := [],
    fields := [("a".data, defaultFieldConf)],
    default_field := defaultFieldConf }

/-- The optional `env` configuration used by the test suite: a constrained
pattern plus `is_optional`. -/
def envConf : FieldConf :=
  { pattern := "dev|preprod|prod|local".data, date_format := none,
    datetime_format := none, is_optional := true,
    str_to_var := none, var_to_str := none }

/-- The optional-elision builder of the specification's scenario:
`\x7bbase\x7d/\x7benv\x7d/\x7bname\x7d.\x7bext\x7d` with a constrained optional `env`. -/
def pbOptional : PathBuilder :=
  { template := "{base}/{env}/{name}.{ext}".data,
    parent_template := "{base}/{env}".data,
    fields := [("base".data, defaultFieldConf), ("env".data, envConf),
               ("name".data, defaultFieldConf), ("ext".data, defaultFieldConf)],
    default_field := defaultFieldConf }

/-- The default filename pattern made optional. -/
def optFileConf : FieldConf :=
  { pattern := SafePatterns.FILENAME, date_format := none,
    datetime_format := none, is_optional := true,
    str_to_var := none, var_to_str := none }

/-- A builder whose optional field is adjacent to another placeholder, so
its pattern can absorb neighbouring text when parsing. -/
def pbTrailingOpt : PathBuilder :=
  { template := "{b}{a}".data, parent_template := [],
    fields := [("b".data, defaultFieldConf), ("a".data, optFileConf)],
    default_field := defaultFieldConf }

/-- A three-segment builder with default configurations. -/
def pbSegments : PathBuilder :=
  { template := "{x}/{y}/{z}".data, parent_template := "{x}/{y}".data,
    fields := [("x".data, defaultFieldConf), ("y".data, defaultFieldConf),
               ("z".data, defaultFieldConf)],
    default_field := defaultFieldConf }

/-- A two-segment builder with default configurations. -/
def pbTwoSeg : PathBuilder :=
  { template := "{y}/{z}".data, parent_template := "{y}".data,
    fields := [("y".data, defaultFieldConf), ("z".data, defaultFieldConf)],
    default_field := defaultFieldConf }

/-- The deep builder of the dynamic-parent-path test:
`/\x7ba\x7d/\x7bb\x7d/\x7bc\x7d/\x7bd\x7d/\x7bname\x7d`. -/
def pbDeep : PathBuilder :=
  { template := "/{a}/{b}/{c}/{d}/{name}".data,
    parent_template := "/{a}/{b}/{c}/{d}".data,
    fields := [("a".data, defaultFieldConf), ("b".data, defaultFieldConf),
               ("c".data, defaultFieldConf), ("d".data, defaultFieldConf),
               ("name".data, defaultFieldConf)],
    default_field := defaultFieldConf }

/-- An optional field with the constrained pattern `[0-9]\x7b4\x7d`. -/
def digitsOptConf : FieldConf :=
  { pattern := "[0-9]{4}".data, date_format := none, datetime_format := none,
    is_optional := true, str_to_var := none, var_to_str := none }

/-- A non-optional field whose pattern has a top-level alternation. -/
def altPlainConf : FieldConf :=
  { pattern := "a|bb".data, date_format := none, datetime_format := none,
    is_optional := false, str_to_var := none, var_to_str := none }

/-- The pattern dictionary of the repeated-field parsing test. -/
def repPatternDict : Dict Str :=
  [("folder".data, "[a-zA-Z_]+".data), ("version".data, "v[0-9]+".data),
   ("name".data, "[a-zA-Z_]+".data), ("extension".data, "txt".data)]

/-- C1, amended part: the fields bijection
`parse_file_path(get_path(**V), raise_error=True) == V` is an
instance-level property, not a law — validating values do not guarantee
it even for the well-separated scenario builder.  Shown here: it holds at
the specification's scenario instance (`V = \x7ba:x, b:y, c:z, ext:txt\x7d`
round-trips), yet on the same builder the also-validating
`V = \x7ba:x, b:y, c:z.tar, ext:gz\x7d` assembles to `x/y/z.tar.gz` and parses
back with `c = "z"`, `ext = "tar.gz"`, a different map. -/
theorem C1_fields_bijection_scenario :
    mkPathBuilder "{a}/{b}/{c}.{ext}".data none none none = .ok pbScenario ∧
    get_path pbScenario
      [("a".data, PyVal.vstr "x".data), ("b".data, PyVal.vstr "y".data),
       ("c".data, PyVal.vstr "z".data), ("ext".data, PyVal.vstr "txt".data)] =
      .ok "x/y/z.txt".data ∧
    parse_file_path pbScenario "x/y/z.txt".data true =
      .ok (some [("a".data, PyVal.vstr "x".data), ("b".data, PyVal.vstr "y".data),
                 ("c".data, PyVal.vstr "z".data), ("ext".data, PyVal.vstr "txt".data)]) ∧
    prepare_fields_values
      [("a".data, PyVal.vstr "x".data), ("b".data, PyVal.vstr "y".data),
       ("c".data, PyVal.vstr "z.tar".data), ("ext".data, PyVal.vstr "gz".data)]
      pbScenario.fields =
      .ok [("a".data, "x".data), ("b".data, "y".data),
           ("c".data, "z.tar".data), ("ext".data, "gz".data)] ∧
    get_path pbScenario
      [("a".data, PyVal.vstr "x".data), ("b".data, PyVal.vstr "y".data),
       ("c".data, PyVal.vstr "z.tar".data), ("ext".data, PyVal.vstr "gz".data)] =
      .ok "x/y/z.tar.gz".data ∧
    parse_file_path pbScenario "x/y/z.tar.gz".data true =
      .ok (some [("a".data, PyVal.vstr "x".data), ("b".data, PyVal.vstr "y".data),
                 ("c".data, PyVal.vstr "z".data), ("ext".data, PyVal.vstr "tar.gz".data)]) ∧
    dictBeq [("a".data, PyVal.vstr "x".data), ("b".data, PyVal.vstr "y".data),
             ("c".data, PyVal.vstr "z".data), ("ext".data, PyVal.vstr "tar.gz".data)]
      [("a".data, PyVal.vstr "x".data), ("b".data, PyVal.vstr "y".data),
       ("c".data, PyVal.vstr "z.tar".data), ("ext".data, PyVal.vstr "gz".data)] = false :=
  ⟨rfl, rfl, rfl, rfl, rfl, rfl, rfl⟩

/-- C1, counterexample: for the adjacent-placeholder builder `\x7ba\x7d\x7bb\x7d` and
values `a = "xy"`, `b = "z"`, every encoded value fully matches its field's
pattern (the `prepare_fields_values` validation succeeds), yet parsing the
assembled path `"xyz"` returns `a = "x"`, `b = "yz"`, a different map: the
claimed bijection is false as a universal statement. -/
theorem C1_fields_bijection_ambiguous_cex :
    mkPathBuilder "{a}{b}".data none none none = .ok pbAdjacent ∧
    prepare_fields_values
      [("a".data, PyVal.vstr "xy".data), ("b".data, PyVal.vstr "z".data)]
      pbAdjacent.fields = .ok [("a".data, "xy".data), ("b".data, "z".data)] ∧
    get_path pbAdjacent
      [("a".data, PyVal.vstr "xy".data), ("b".data, PyVal.vstr "z".data)] =
      .ok "xyz".data ∧
    parse_file_path pbAdjacent "xyz".data true =
      .ok (some [("a".data, PyVal.vstr "x".data), ("b".data, PyVal.vstr "yz".data)]) ∧
    dictBeq [("a".data, PyVal.vstr "x".data), ("b".data, PyVal.vstr "yz".data)]
      [("a".data, PyVal.vstr "xy".data), ("b".data, PyVal.vstr "z".data)] = false :=
  ⟨rfl, rfl, rfl, rfl, rfl⟩

/-- C2: on a non-matching input, strict mode raises the parse error carrying
the input and the compiled pattern, as claimed; but non-strict mode does
not return `None` — `parse_fields` returns `None` and
`process_parsed_fields_values` then calls `None.copy()`, an
`AttributeError`, contradicting the source's own docstring (`By default, it
returns None`).  On a matching input non-strict mode works normally. -/
theorem C2_nonstrict_mismatch_code_bug :
    mkPathBuilder "{a}".data none none none = .ok pbSingle ∧
    parse_file_path pbSingle "!!".data false =
      .error (.attributeError "NoneType object has no attribute copy".data) ∧
    parse_file_path pbSingle "!!".data true =
      .error (.parseNoMatch "!!".data "^(?P<a>[-_.a-zA-Z0-9]+?)$".data) ∧
    parse_file_path pbSingle "ok".data false =
      .ok (some [("a".data, PyVal.vstr "ok".data)]) :=
  ⟨rfl, rfl, rfl, rfl⟩

/-- C3, counterexample: decoding does not enforce the claimed full-match
languages.  For an optional field with pattern `[0-9]\x7b4\x7d` the string
`"1234x"` is neither empty nor a full match of the pattern, yet decoding
accepts it (the compiled check is `^[0-9]\x7b4\x7d|$`, whose alternation is at top
level, so the first branch only requires a matching prefix); for a
non-optional field with pattern `a|bb`, `"ax"` is not a full match of the
pattern yet decoding accepts it (`^a|bb$` reads as `(^a)|(bb$)`). -/
theorem C3_decode_accept_cex :
    process_parsed_fields_values [("f".data, digitsOptConf)]
      [("f".data, some "1234x".data)] = .ok [("f".data, PyVal.vstr "1234x".data)] ∧
    re_full_matchB "[0-9]{4}".data "1234x".data = false ∧
    "1234x".data ≠ ([] : Str) ∧
    process_parsed_fields_values [("g".data, altPlainConf)]
      [("g".data, some "ax".data)] = .ok [("g".data, PyVal.vstr "ax".data)] ∧
    re_full_matchB "a|bb".data "ax".data = false :=
  ⟨rfl, rfl, by decide, rfl, rfl⟩

/-- C3, amended: the optional check `re.match("^p|$", s)` accepts the empty
string, any string whose prefix matches `^p`, and a sole trailing newline
(where `$` matches at position 0), rejecting everything else; the
non-optional check `re.match("^p$", s)` anchors each top-level alternative
of `p` separately.  Shown on the fields with patterns `[0-9]\x7b4\x7d` (optional)
and `a|bb` (non-optional). -/
theorem C3_decode_prefix_semantics :
    process_parsed_fields_values [("f".data, digitsOptConf)]
      [("f".data, some [])] = .ok [("f".data, PyVal.vnone)] ∧
    process_parsed_fields_values [("f".data, digitsOptConf)]
      [("f".data, some "1234xyz".data)] = .ok [("f".data, PyVal.vstr "1234xyz".data)] ∧
    process_parsed_fields_values [("f".data, digitsOptConf)]
      [("f".data, some "\n".data)] = .ok [("f".data, PyVal.vstr "\n".data)] ∧
    process_parsed_fields_values [("f".data, digitsOptConf)]
      [("f".data, some "x234".data)] =
      .error (.invalidFieldValue "f".data "x234".data "[0-9]{4}".data) ∧
    process_parsed_fields_values [("g".data, altPlainConf)]
      [("g".data, some "bb".data)] = .ok [("g".data, PyVal.vstr "bb".data)] ∧
    process_parsed_fields_values [("g".data, altPlainConf)]
      [("g".data, some "xbb".data)] =
      .error (.invalidFieldValue "g".data "xbb".data "a|bb".data) ∧
    re_full_matchB "[0-9]{4}".data "1234".data = true :=
  ⟨rfl, rfl, rfl, rfl, rfl, rfl, rfl⟩

/-- C4, counterexample: the construction check accepts a parent template
that is a substring but not a prefix of the template, so the claim
`construction fails whenever p is not a prefix of t` is false. -/
theorem C4_parent_substring_cex :
    check_parent_path_template "{a}/{b}".data "{b}".data = .ok () ∧
    ¬ ("{b}".data <+: "{a}/{b}".data) ∧
    ∃ pb : PathBuilder,
      mkPathBuilder "{a}/{b}".data (some "{b}".data) none none = .ok pb :=
  ⟨rfl, by decide, ⟨_, rfl⟩⟩

/-- C4, amended: the enforced relation is substring containment, not
prefixhood — the check succeeds exactly when the parent template is an
infix of the template, and in particular every prefix passes. -/
theorem C4_parent_substring_check (t p : Str) :
    (check_parent_path_template t p = .ok () ↔ p <:+: t) ∧
    (p <+: t → check_parent_path_template t p = .ok ()) := by
  have hiff : strContainsB t p = true ↔ p <:+: t := by
    unfold strContainsB
    rw [List.any_eq_true]
    constructor
    · rintro ⟨x, hx, hp⟩
      rw [List.mem_tails] at hx
      rw [List.isPrefixOf_iff_prefix] at hp
      exact List.infix_iff_prefix_suffix.mpr ⟨x, hp, hx⟩
    · intro h
      obtain ⟨x, hp, hs⟩ := List.infix_iff_prefix_suffix.mp h
      exact ⟨x, (List.mem_tails x t).mpr hs, List.isPrefixOf_iff_prefix.mpr hp⟩
  have hmain : check_parent_path_template t p = .ok () ↔ p <:+: t := by
    unfold check_parent_path_template
    by_cases hc : strContainsB t p = true
    · rw [if_pos hc]
      simp [hiff.mp hc]
    · rw [if_neg hc]
      constructor
      · intro h
        exact Except.noConfusion h
      · intro h
        exact absurd (hiff.mpr h) hc
  exact ⟨hmain, fun hp => hmain.mpr hp.isInfix⟩

/-- C4, witness: the check accepts the prefix parent of the test suite. -/
theorem C4_parent_substring_check_witness :
    check_parent_path_template "prefix/{a}/{b}".data "prefix/{a}".data = .ok () :=
  (C4_parent_substring_check "prefix/{a}/{b}".data "prefix/{a}".data).2 (by decide)

/-- C5, counterexample: with both an invalid field (`b`) and a missing
field (`a`) present, the coverage check raises an error listing only the
invalid fields — the missing list, although non-empty, is not reported. -/
theorem C5_coverage_first_error_cex :
    check_template_fields "{a}".data ["b".data] =
      .error (.invalidFields ["b".data] "{a}".data) ∧
    (get_template_fields_names "{a}".data).filter
      (fun f => ¬ ["b".data].contains f) = ["a".data] :=
  ⟨rfl, rfl⟩

/-- C5, amended: the coverage check reports the invalid fields first and
alone whenever any exist; missing fields are reported only when there are
no invalid fields; it succeeds when both lists are empty. -/
theorem C5_coverage_error_order (tmpl : Str) (keys : List Str) :
    (keys.filter (fun f => ¬ (get_template_fields_names tmpl).contains f) ≠ [] →
      check_template_fields tmpl keys =
        .error (.invalidFields
          (keys.filter (fun f => ¬ (get_template_fields_names tmpl).contains f)) tmpl)) ∧
    (keys.filter (fun f => ¬ (get_template_fields_names tmpl).contains f) = [] →
      (get_template_fields_names tmpl).filter (fun f => ¬ keys.contains f) ≠ [] →
      check_template_fields tmpl keys =
        .error (.missingFields
          ((get_template_fields_names tmpl).filter (fun f => ¬ keys.contains f)) tmpl)) ∧
    (keys.filter (fun f => ¬ (get_template_fields_names tmpl).contains f) = [] →
      (get_template_fields_names tmpl).filter (fun f => ¬ keys.contains f) = [] →
      check_template_fields tmpl keys = .ok ()) := by
  unfold check_template_fields
  refine ⟨fun h => ?_, fun h1 h2 => ?_, fun h1 h2 => ?_⟩
  · rw [if_pos h]
  · rw [if_neg (not_not_intro h1), if_pos h2]
  · rw [if_neg (not_not_intro h1), if_neg (not_not_intro h2)]

/-- C5, witness: the three outcomes of the coverage check at concrete
inputs. -/
theorem C5_coverage_error_order_witness :
    check_template_fields "{a}/{b}".data ["c".data, "a".data] =
      .error (.invalidFields ["c".data] "{a}/{b}".data) ∧
    check_template_fields "{a}/{b}".data ["a".data] =
      .error (.missingFields ["b".data] "{a}/{b}".data) ∧
    check_template_fields "{a}/{b}".data ["a".data, "b".data] = .ok () :=
  ⟨(C5_coverage_error_order "{a}/{b}".data ["c".data, "a".data]).1 (by decide),
   (C5_coverage_error_order "{a}/{b}".data ["a".data]).2.1 (by decide) (by decide),
   (C5_coverage_error_order "{a}/{b}".data ["a".data, "b".data]).2.2 (by decide) (by decide)⟩

/-- C6, counterexample: the substituted path `a/../b` contains a `..`
segment, but the assembler's normalization resolves it against the
preceding segment — `get_path` returns `"b"`, in which the `..` segment
does not appear, so `..` segments are not left untouched. -/
theorem C6_dotdot_resolved_cex :
    mkPathBuilder "{x}/{y}/{z}".data none none none = .ok pbSegments ∧
    formatStr "{x}/{y}/{z}".data
      [("x".data, "a".data), ("y".data, "..".data), ("z".data, "b".data)] =
      .ok "a/../b".data ∧
    strContainsB "a/../b".data "..".data = true ∧
    get_path pbSegments
      [("x".data, PyVal.vstr "a".data), ("y".data, PyVal.vstr "..".data),
       ("z".data, PyVal.vstr "b".data)] = .ok "b".data ∧
    strContainsB "b".data "..".data = false :=
  ⟨rfl, rfl, rfl, rfl, rfl⟩

/-- C6, amended: the assembler's lexical normalization (`os.path.normpath`)
collapses repeated separators, resolves single-dot segments, and also
resolves a `..` segment against a preceding segment; only a `..` with no
preceding segment in a relative path survives. -/
theorem C6_normalization_behavior :
    get_path pbSegments
      [("x".data, PyVal.vstr "a".data), ("y".data, PyVal.vstr "..".data),
       ("z".data, PyVal.vstr "b".data)] = .ok "b".data ∧
    get_path pbSegments
      [("x".data, PyVal.vstr "a".data), ("y".data, PyVal.vstr ".".data),
       ("z".data, PyVal.vstr "b".data)] = .ok "a/b".data ∧
    mkPathBuilder "{y}/{z}".data none none none = .ok pbTwoSeg ∧
    get_path pbTwoSeg
      [("y".data, PyVal.vstr "..".data), ("z".data, PyVal.vstr "b".data)] =
      .ok "../b".data ∧
    pyNormpath "a//b/./c".data = "a/b/c".data :=
  ⟨rfl, rfl, rfl, rfl, rfl⟩

/-- C9, counterexample: for the scenario builder the assembled path with
`env` omitted is `base/name.txt` — the empty segment produced by the
encoding has been collapsed by normalization, so the returned path contains
no empty segment; and for a builder whose optional field `a` is adjacent to
another placeholder, parsing the path assembled without `a` yields the
string `"y"` for `a`, not `null`. -/
theorem C9_optional_elision_cex :
    mkPathBuilder "{base}/{env}/{name}.{ext}".data none
      (some [("env".data, envConf)]) none = .ok pbOptional ∧
    get_path pbOptional
      [("base".data, PyVal.vstr "base".data), ("name".data, PyVal.vstr "name".data),
       ("ext".data, PyVal.vstr "txt".data)] = .ok "base/name.txt".data ∧
    strContainsB "base/name.txt".data "//".data = false ∧
    mkPathBuilder "{b}{a}".data none (some [("a".data, optFileConf)]) none =
      .ok pbTrailingOpt ∧
    get_path pbTrailingOpt [("b".data, PyVal.vstr "xy".data)] = .ok "xy".data ∧
    parse_file_path pbTrailingOpt "xy".data true =
      .ok (some [("b".data, PyVal.vstr "x".data), ("a".data, PyVal.vstr "y".data)]) :=
  ⟨rfl, rfl, rfl, rfl, rfl, rfl⟩

/-- C9, amended: an omitted optional field is encoded as the empty string;
the substituted path carries the empty segment (`base//name.txt`), which
lexical normalization collapses, so the assembled path contains no empty
segment.  Parsing the assembled path yields `null` for the omitted field
only at instances where no pattern re-absorbs the surrounding text: it
does at the scenario instance (`base/name.txt`), and the supplied-field
round trip also holds — but even the constrained `env` pattern captures
neighbouring text when the name starts with an alternative: omitting `env`
with `base = "b"`, `name = "devx"` assembles `b/devx.txt`, which parses to
`env = "dev"`, `name = "x"`, not `null`. -/
theorem C9_optional_elision_roundtrip :
    prepare_fields_values
      [("base".data, PyVal.vstr "base".data), ("name".data, PyVal.vstr "name".data),
       ("ext".data, PyVal.vstr "txt".data), ("env".data, PyVal.vnone)]
      pbOptional.fields =
      .ok [("base".data, "base".data), ("name".data, "name".data),
           ("ext".data, "txt".data), ("env".data, [])] ∧
    formatStr pbOptional.template
      [("base".data, "base".data), ("name".data, "name".data),
       ("ext".data, "txt".data), ("env".data, [])] = .ok "base//name.txt".data ∧
    pyNormpath "base//name.txt".data = "base/name.txt".data ∧
    get_path pbOptional
      [("base".data, PyVal.vstr "base".data), ("name".data, PyVal.vstr "name".data),
       ("ext".data, PyVal.vstr "txt".data)] = .ok "base/name.txt".data ∧
    parse_file_path pbOptional "base/name.txt".data true =
      .ok (some [("base".data, PyVal.vstr "base".data), ("env".data, PyVal.vnone),
                 ("name".data, PyVal.vstr "name".data), ("ext".data, PyVal.vstr "txt".data)]) ∧
    get_path pbOptional
      [("base".data, PyVal.vstr "base".data), ("env".data, PyVal.vstr "dev".data),
       ("name".data, PyVal.vstr "name".data), ("ext".data, PyVal.vstr "txt".data)] =
      .ok "base/dev/name.txt".data ∧
    parse_file_path pbOptional "base/dev/name.txt".data true =
      .ok (some [("base".data, PyVal.vstr "base".data), ("env".data, PyVal.vstr "dev".data),
                 ("name".data, PyVal.vstr "name".data), ("ext".data, PyVal.vstr "txt".data)]) ∧
    get_path pbOptional
      [("base".data, PyVal.vstr "b".data), ("name".data, PyVal.vstr "devx".data),
       ("ext".data, PyVal.vstr "txt".data)] = .ok "b/devx.txt".data ∧
    parse_file_path pbOptional "b/devx.txt".data true =
      .ok (some [("base".data, PyVal.vstr "b".data), ("env".data, PyVal.vstr "dev".data),
                 ("name".data, PyVal.vstr "x".data), ("ext".data, PyVal.vstr "txt".data)]) :=
  ⟨rfl, rfl, rfl, rfl, rfl, rfl, rfl, rfl, rfl⟩

/-- C7: when the first parent-template field that is neither supplied nor
optional sits at position `k` (every earlier field being supplied or
optional), `get_parent_path` assembles the parent template truncated
immediately before that field's placeholder using only the field
configurations at positions `0 .. k-1`; and if any supplied key falls past
that cut, the call instead fails with the error naming the offending keys,
the shortened template and the field that triggered the truncation. -/
theorem C7_parent_truncation (b : PathBuilder) (kwargs : Dict PyVal)
    (pf : Dict FieldConf) (k : Nat)
    (hpf : drop_filename_fields b = .ok pf)
    (hk : k < (get_template_fields_names b.parent_template).length)
    (hbefore : ∀ j, j < k →
      keptField pf kwargs ((get_template_fields_names b.parent_template).getD j []) = true)
    (htr : truncAtField pf kwargs
      ((get_template_fields_names b.parent_template).getD k []) = true) :
    let f := (get_template_fields_names b.parent_template).getD k []
    let newT := strSplitOnceHead b.parent_template ("\x7b".data ++ f ++ "\x7d".data)
    let surviving := pf.filter (fun q =>
      ((get_template_fields_names b.parent_template).take k).contains q.1)
    let extras := kwargs.filter (fun q => ¬ dmem surviving q.1)
    (extras = [] → get_parent_path b kwargs = get_path_impl newT surviving kwargs) ∧
    (f ≠ [] → extras ≠ [] →
      get_parent_path b kwargs = .error (.extraKwargs extras newT f)) := by
  intro f newT surviving extras
  have hd := dynLoop_spec pf kwargs (get_template_fields_names b.parent_template)
    k b.parent_template [] hk hbefore htr
  simp only [List.reverse_nil, List.nil_append] at hd
  unfold get_parent_path
  simp only [hpf, hd]
  constructor
  · intro hex
    rw [if_neg (fun hcon => hcon.2 hex)]
  · intro hf hex
    rw [if_pos ⟨hf, hex⟩]

/-- C7, witness: on the builder `/\x7ba\x7d/\x7bb\x7d/\x7bc\x7d/\x7bd\x7d/\x7bname\x7d` with only `a`
supplied, the parent path is assembled from the template truncated before
`\x7bb\x7d`; additionally supplying `d` — a field past the cut — fails with the
error naming `d`, the truncated template, and `b`. -/
theorem C7_parent_truncation_witness :
    get_parent_path pbDeep [("a".data, PyVal.vstr "aaa".data)] =
      get_path_impl "/{a}/".data [("a".data, defaultFieldConf)]
        [("a".data, PyVal.vstr "aaa".data)] ∧
    get_parent_path pbDeep
      [("a".data, PyVal.vstr "aaa".data), ("d".data, PyVal.vstr "ddd".data)] =
      .error (.extraKwargs [("d".data, PyVal.vstr "ddd".data)] "/{a}/".data "b".data) :=
  ⟨(C7_parent_truncation pbDeep [("a".data, PyVal.vstr "aaa".data)]
      [("a".data, defaultFieldConf), ("b".data, defaultFieldConf),
       ("c".data, defaultFieldConf), ("d".data, defaultFieldConf)] 1
      rfl (by decide) (by decide) (by decide)).1 rfl,
   (C7_parent_truncation pbDeep
      [("a".data, PyVal.vstr "aaa".data), ("d".data, PyVal.vstr "ddd".data)]
      [("a".data, defaultFieldConf), ("b".data, defaultFieldConf),
       ("c".data, defaultFieldConf), ("d".data, defaultFieldConf)] 1
      rfl (by decide) (by decide) (by decide)).2 (by decide) (by decide)⟩

/-- C8: for a template whose duplicated field `x` was rewritten to the
dedup names `names` (the only duplicated field), once the compiled pattern
matches the input, the parse result is decided by the captured values of
the dedup groups: if they are not all identical the parse fails — whatever
`raise_error` is — with the error naming `x` and the conflicting values;
if they all agree the parse succeeds with the captures fused into a single
entry under `x` holding the common value. -/
theorem C8_duplicate_fusion (s template : Str) (pattern_dict : Dict Str)
    (raise_error : Bool) (st : DedupSt) (body : Str)
    (gd gd' : Dict (Option Str)) (x : Str) (names : List Str)
    (vs : List (Option Str))
    (hck : check_template_fields template (dkeys pattern_dict) = .ok ())
    (hst : dedupLoop (get_template_fields_names template) pattern_dict
      (dedupFirst (get_template_fields_names template))
      { newPd := [], ddMap := [], newTemplate := template } = .ok st)
    (hdup : dictBeq pattern_dict st.newPd = false)
    (hbody : formatStr st.newTemplate (assign_groupname_pattern_dict st.newPd) = .ok body)
    (hgd : re_match_groupdict ('^' :: (body ++ ['$'])) s = .ok (some gd))
    (hdd : st.ddMap = [(x, names)])
    (hpop : dpopList gd names = some (vs, gd')) :
    (allSame vs = false →
      parse_fields s template pattern_dict raise_error =
        .error (.dupFieldMismatch x vs)) ∧
    (allSame vs = true →
      parse_fields s template pattern_dict raise_error =
        .ok (some (dset gd' x (vs.headD none))) ∧
      dget? (dset gd' x (vs.headD none)) x = some (vs.headD none)) := by
  unfold parse_fields
  simp only [hck, hst, hdup, Bool.false_eq_true, not_false_eq_true, if_true, hbody, hgd, hdd]
  unfold fuseDedup
  simp only [hpop]
  constructor
  · intro hvs
    rw [if_neg (by simp [hvs])]
  · intro hvs
    rw [if_pos hvs]
    exact ⟨rfl, dget?_dset gd' x (vs.headD none)⟩

/-- C8, witness: the repeated-`version` template of the test suite — the
mismatching input fails naming `version` and both captured values even in
non-strict mode, and the agreeing input fuses to a single `version`
entry. -/
theorem C8_duplicate_fusion_witness :
    parse_fields "other/v5/my_name_v6.txt".data
      "{folder}/{version}/{name}_{version}.{extension}".data repPatternDict false =
      .error (.dupFieldMismatch "version".data
        [some "v5".data, some "v6".data]) ∧
    parse_fields "somewhere/v2/custom_name_v2.txt".data
      "{folder}/{version}/{name}_{version}.{extension}".data repPatternDict true =
      .ok (some [("folder".data, some "somewhere".data),
                 ("name".data, some "custom_name".data),
                 ("extension".data, some "txt".data),
                 ("version".data, some "v2".data)]) :=
  ⟨(C8_duplicate_fusion "other/v5/my_name_v6.txt".data
      "{folder}/{version}/{name}_{version}.{extension}".data repPatternDict false
      _ _ _ _ _ _ _ rfl rfl rfl rfl rfl rfl rfl).1 rfl,
   ((C8_duplicate_fusion "somewhere/v2/custom_name_v2.txt".data
      "{folder}/{version}/{name}_{version}.{extension}".data repPatternDict true
      _ _ _ _ _ _ _ rfl rfl rfl rfl rfl rfl rfl).2 rfl).1⟩

/-- C10: once the compiled pattern has matched, the `raise_error` flag is
never consulted again — any error raised by the duplicate-capture fusion
(such as disagreeing captures) escapes with `raise_error=False` exactly as
with `raise_error=True`; the flag only suppresses the overall
pattern-match failure. -/
theorem C10_fusion_error_ignores_flag (s template : Str) (pattern_dict : Dict Str)
    (st : DedupSt) (body : Str) (gd : Dict (Option Str)) (e : PBError)
    (hck : check_template_fields template (dkeys pattern_dict) = .ok ())
    (hst : dedupLoop (get_template_fields_names template) pattern_dict
      (dedupFirst (get_template_fields_names template))
      { newPd := [], ddMap := [], newTemplate := template } = .ok st)
    (hdup : dictBeq pattern_dict st.newPd = false)
    (hbody : formatStr st.newTemplate (assign_groupname_pattern_dict st.newPd) = .ok body)
    (hgd : re_match_groupdict ('^' :: (body ++ ['$'])) s = .ok (some gd))
    (hfuse : fuseDedup st.ddMap gd = .error e) :
    parse_fields s template pattern_dict false = .error e ∧
    parse_fields s template pattern_dict true = .error e := by
  have h : ∀ fl : Bool, parse_fields s template pattern_dict fl = .error e := by
    intro fl
    unfold parse_fields
    simp only [hck, hst, hdup, Bool.false_eq_true, not_false_eq_true, if_true,
      hbody, hgd, hfuse]
  exact ⟨h false, h true⟩

/-- C10, witness: the disagreeing repeated-`version` input fails with the
fusion error although `raise_error=False` was passed. -/
theorem C10_fusion_error_ignores_flag_witness :
    parse_fields "somewhere/v2/custom_name_v3.txt".data
      "{folder}/{version}/{name}_{version}.{extension}".data repPatternDict false =
      .error (.dupFieldMismatch "version".data
        [some "v2".data, some "v3".data]) :=
  (C10_fusion_error_ignores_flag "somewhere/v2/custom_name_v3.txt".data
    "{folder}/{version}/{name}_{version}.{extension}".data repPatternDict
    _ _ _ _ rfl rfl rfl rfl rfl rfl).1

end Andar
